import Mathlib

/-!
Verification of the Blog-App user/blog authentication and ownership model.

The repository ships the test suites of its Express controllers and Mongoose
models; the handler behaviour verified here is the one documented in the
design specification (sections 3 to 8): signup and login with password
hashing, and blog CRUD maintaining the bidirectional user-blog relationship
through an atomic two-document update.

Stores are modelled as lists of records, HTTP handlers as pure functions from
a store and a request body to a new store and a response. Request-body fields
are `Option`-valued: `none` models an absent JSON field.
-/

namespace BlogApp

/-- Blog record (spec section 3): title, desc, optional image resolved at
creation, reference to the owning user by id, creation timestamp. -/
structure Blog where
  id : Nat
  title : String
  desc : String
  img : String
  user : Nat
  date : Nat
deriving Repr, DecidableEq

/-- User record (spec section 3): display name, unique email used as login
key, stored password hash, ordered list of owned blog ids. -/
structure User where
  id : Nat
  name : String
  email : String
  password : String
  blogs : List Nat
deriving Repr, DecidableEq

/-- Persisted state: the Users and Blogs collections (spec section 6). -/
structure Store where
  users : List User
  blogs : List Blog
deriving Repr, DecidableEq

/-- User representation appearing in a response body. The password field is
`Option`-valued: `none` models the field being absent from the JSON body. -/
structure ApiUser where
  id : Nat
  name : String
  email : String
  password : Option String
  blogs : List Nat
deriving Repr, DecidableEq

/-- Modelled from the spec: the Credential Hasher (section 4.1) is an external
collaborator (bcrypt); `hash` is a deterministic one-way transform, modelled
as an injective tagging function that never returns the plaintext unchanged. -/
def hashPassword (plaintext : String) : String :=
  "$2b$" ++ plaintext

/-- Modelled from the spec: `verify(plaintext, passwordHash)` returns true iff
`hash(plaintext)` corresponds to `passwordHash` (section 4.1). -/
def verifyPassword (plaintext storedHash : String) : Bool :=
  hashPassword plaintext == storedHash

/-- Modelled from the spec: token issuance at login is an external
collaborator, any opaque signed-token scheme (section 4.3). -/
def issueToken (u : User) : String :=
  "token-" ++ toString u.id

/-- Lookup of a User by exact email match (login, uniqueness check). -/
def findUserByEmail (s : Store) (email : String) : Option User :=
  s.users.find? (fun u => u.email == email)

/-- Lookup of a User by id (ownership checks, population). -/
def findUserById (s : Store) (uid : Nat) : Option User :=
  s.users.find? (fun u => u.id == uid)

/-- Lookup of a Blog by id. -/
def findBlogById (s : Store) (bid : Nat) : Option Blog :=
  s.blogs.find? (fun b => b.id == bid)

/-- Fresh opaque identifier for a new User, distinct from every existing one. -/
def freshUserId (s : Store) : Nat :=
  (s.users.map User.id).foldr max 0 + 1

/-- Fresh opaque identifier for a new Blog, distinct from every existing one. -/
def freshBlogId (s : Store) : Nat :=
  (s.blogs.map Blog.id).foldr max 0 + 1

/-- Public projection of a stored User: id, name, email, blogs; the stored
hash is not echoed back (spec sections 4.2 and 8). -/
def User.toApi (u : User) : ApiUser :=
  { id := u.id, name := u.name, email := u.email, password := none,
    blogs := u.blogs }

/-- Signup request body; each field may be absent. -/
structure SignupInput where
  name : Option String
  email : Option String
  password : Option String
deriving Repr, DecidableEq

/-- Response of the Signup handler. -/
structure SignupResponse where
  status : Nat
  message : String
  user : Option ApiUser
deriving Repr, DecidableEq

/-- True when a request-body string field is missing or empty. -/
def blank : Option String → Bool
  | none => true
  | some s => s.isEmpty

/-- Modelled from the spec: the Signup handler (section 4.2; the controller
module is exercised by tests/controllers/user-controller.test.js). Fails 400
if any field is missing or empty; fails 400 with a conflict message if a user
with that email already exists (exact match); otherwise hashes the password,
creates a User with empty blogs, persists it and returns its public fields
with 201. -/
def signUp (s : Store) (input : SignupInput) : Store × SignupResponse :=
  if blank input.name || blank input.email || blank input.password then
    (s, { status := 400, message := "All fields are required", user := none })
  else
    match input.name, input.email, input.password with
    | some n, some e, some p =>
      match findUserByEmail s e with
      | some _ =>
        (s, { status := 400, message := "User is already exists!", user := none })
      | none =>
        let u : User :=
          { id := freshUserId s, name := n, email := e,
            password := hashPassword p, blogs := [] }
        ({ s with users := s.users ++ [u] },
         { status := 201, message := "", user := some u.toApi })
    | _, _, _ =>
      (s, { status := 400, message := "All fields are required", user := none })

/-- Login request body; each field may be absent. -/
structure LoginInput where
  email : Option String
  password : Option String
deriving Repr, DecidableEq

/-- Response of the Login handler. -/
structure LoginResponse where
  status : Nat
  message : String
  user : Option ApiUser
  token : Option String
deriving Repr, DecidableEq

/-- Modelled from the spec: the Login handler (section 4.3; the controller
module is exercised by tests/controllers/user-controller.test.js). Fails 400
if email or password is missing; looks up the User by exact email, failing
404 if absent; verifies the password against the stored hash, failing 400 on
mismatch; on success returns the public user fields and an opaque token with
200. -/
def logIn (s : Store) (input : LoginInput) : LoginResponse :=
  match input.email, input.password with
  | some e, some p =>
    match findUserByEmail s e with
    | none =>
      { status := 404, message := "User is not found", user := none,
        token := none }
    | some u =>
      if verifyPassword p u.password then
        { status := 200, message := "", user := some u.toApi,
          token := some (issueToken u) }
      else
        { status := 400, message := "Incorrect Password!", user := none,
          token := none }
  | _, _ =>
    { status := 400, message := "Email and password are required",
      user := none, token := none }

/-- Add-blog request body; img is optional with a placeholder default. -/
structure AddBlogInput where
  title : Option String
  desc : Option String
  img : Option String
  user : Option Nat
deriving Repr, DecidableEq

/-- Response of the blog handlers that return a Blog. -/
structure BlogResponse where
  status : Nat
  message : String
  blog : Option Blog
deriving Repr, DecidableEq

/-- Placeholder image used when the img field is absent (spec section 4.5). -/
def placeholderImg : String := "placeholder.jpg"

/-- Outcome of the two-write transaction of the Add-Blog handler: either the
storage layer commits both writes, or a storage fault strikes between the
Blog write and the User write and the transaction aborts (spec section 5). -/
inductive TxFault where
  | commit
  | faultBetweenWrites
deriving Repr, DecidableEq

/-- Modelled from the spec: the Add-Blog handler (sections 4.5 and 5; the
controller module is exercised by tests/controllers/blog-controller.test.js,
whose mocks show a mongoose session with begin/commit/abort). Fails 400 if
title or desc is missing; looks up the referenced User, failing 400 with
message Unauthorized if absent; then, in one atomic transaction, creates the
Blog (placeholder image when img is absent) and appends its id to the blogs
list of the owner. On a storage fault between the two writes the transaction
aborts: no write is retained and the handler reports 500. -/
def addBlog (s : Store) (input : AddBlogInput) (now : Nat) (fault : TxFault) :
    Store × BlogResponse :=
  match input.title, input.desc with
  | some t, some d =>
    match input.user with
    | none => (s, { status := 400, message := "Unauthorized", blog := none })
    | some uid =>
      match findUserById s uid with
      | none => (s, { status := 400, message := "Unauthorized", blog := none })
      | some _ =>
        let b : Blog :=
          { id := freshBlogId s, title := t, desc := d,
            img := (input.img).getD placeholderImg, user := uid, date := now }
        match fault with
        | .faultBetweenWrites =>
          (s, { status := 500, message := "Unable to add", blog := none })
        | .commit =>
          ({ users := s.users.map (fun u =>
               if u.id == uid then { u with blogs := u.blogs ++ [b.id] } else u),
             blogs := s.blogs ++ [b] },
           { status := 200, message := "", blog := some b })
  | _, _ =>
    (s, { status := 400, message := "All fields are required", blog := none })

/-- Update-blog request body; the handler performs no presence validation, so
each field may be absent and only the supplied subset is applied. -/
structure UpdateBlogInput where
  title : Option String
  desc : Option String
deriving Repr, DecidableEq

/-- In-place field update applied by Update-Blog: title and desc only; img,
user and date are untouched (spec section 4.6). An absent field is stripped
from the update document, leaving the stored value in place. -/
def Blog.applyUpdate (b : Blog) (input : UpdateBlogInput) : Blog :=
  { b with title := (input.title).getD b.title,
           desc := (input.desc).getD b.desc }

/-- Modelled from the spec: the Update-Blog handler (section 4.6; the
controller module is exercised by tests/controllers/blog-controller.test.js).
Looks up the Blog by id, failing 500 with message Unable to update if absent;
otherwise applies the in-place update and returns the updated Blog with 200.
No presence validation of the body is performed. -/
def updateBlog (s : Store) (bid : Nat) (input : UpdateBlogInput) :
    Store × BlogResponse :=
  match findBlogById s bid with
  | none => (s, { status := 500, message := "Unable to update", blog := none })
  | some b =>
    let b2 := b.applyUpdate input
    ({ s with blogs := s.blogs.map (fun x => if x.id == bid then b2 else x) },
     { status := 200, message := "", blog := some b2 })

/-- Modelled from the spec: the Get-Blog-By-Id handler (section 4.7; the
controller module is exercised by tests/controllers/blog-controller.test.js,
and mirrored by the client-side mock handler). Fails 500 with message not
found if the id is absent; returns the Blog with 200 otherwise. -/
def getById (s : Store) (bid : Nat) : BlogResponse :=
  match findBlogById s bid with
  | none => { status := 500, message := "not found", blog := none }
  | some b => { status := 200, message := "", blog := some b }

/-- Response of the Delete-Blog handler. -/
structure DeleteResponse where
  status : Nat
  message : String
deriving Repr, DecidableEq

/-- Modelled from the spec: the Delete-Blog handler (section 4.8; the
controller module is exercised by tests/controllers/blog-controller.test.js).
Fails 404 with message Blog not found if no blog has that id; otherwise
atomically deletes the Blog, resolves its owning User from the user field of
the deleted record and removes the deleted id from the blogs list of that
owner, then reports success with 200. -/
def deleteBlog (s : Store) (bid : Nat) : Store × DeleteResponse :=
  match findBlogById s bid with
  | none => (s, { status := 404, message := "Blog not found" })
  | some b =>
    ({ users := s.users.map (fun u =>
         if u.id == b.user then
           { u with blogs := u.blogs.filter (fun x => x != bid) }
         else u),
       blogs := s.blogs.filter (fun x => x.id != bid) },
     { status := 200, message := "Successfully deleted" })

/-- User with its blogs list populated into full Blog records. -/
structure PopulatedUser where
  id : Nat
  name : String
  email : String
  blogs : List Blog
deriving Repr, DecidableEq

/-- Response of the Get-Blogs-By-User handler. -/
structure UserBlogsResponse where
  status : Nat
  message : String
  user : Option PopulatedUser
deriving Repr, DecidableEq

/-- Populate: resolve each stored blog id into the full referenced record
(spec glossary); ids that resolve to nothing contribute nothing. -/
def populateBlogs (s : Store) (bids : List Nat) : List Blog :=
  bids.filterMap (fun bid => findBlogById s bid)

/-- Modelled from the spec: the Get-Blogs-By-User handler (section 4.9; the
controller module is exercised by tests/controllers/blog-controller.test.js).
Looks up the User by id, populating the referenced Blog records of its blogs
list; fails 404 with message No Blog Found if the user does not exist. -/
def getByUserId (s : Store) (uid : Nat) : UserBlogsResponse :=
  match findUserById s uid with
  | none => { status := 404, message := "No Blog Found", user := none }
  | some u =>
    { status := 200, message := "",
      user := some { id := u.id, name := u.name, email := u.email,
                     blogs := populateBlogs s u.blogs } }

/-- Bidirectional-consistency invariant (spec section 3): every id in the
blogs list of any User references an existing Blog whose user field equals
the id of that User. -/
def Consistent (s : Store) : Prop :=
  ∀ u ∈ s.users, ∀ bid ∈ u.blogs,
    ∃ b ∈ s.blogs, b.id = bid ∧ b.user = u.id

instance (s : Store) : Decidable (Consistent s) := by
  unfold Consistent
  infer_instance

/-- Well-formed store: ids are primary keys, so no two users and no two blogs
share an id. -/
def WF (s : Store) : Prop :=
  (s.users.map User.id).Nodup ∧ (s.blogs.map Blog.id).Nodup

instance (s : Store) : Decidable (WF s) := by
  unfold WF
  infer_instance

/-- Concrete user fixture: owner of the fixture blog. -/
def wUserA : User :=
  { id := 1, name := "A", email := "a@x.com", password := hashPassword "p",
    blogs := [10] }

/-- Concrete user fixture with no blogs. -/
def wUserB : User :=
  { id := 2, name := "B", email := "b@x.com", password := hashPassword "q",
    blogs := [] }

/-- Concrete blog fixture owned by `wUserA`. -/
def wBlogT : Blog :=
  { id := 10, title := "T", desc := "D", img := "i.jpg", user := 1, date := 5 }

/-- Concrete store fixture: two users, one blog, consistent and well-formed. -/
def wStore : Store := { users := [wUserA, wUserB], blogs := [wBlogT] }

theorem find?_map_replace {α : Type} (p : α → Bool) (g : α → α)
    (l : List α) (a : α) (h : l.find? p = some a)
    (hstable : ∀ x, p x = false → g x = x) (hga : p (g a) = true) :
    (l.map g).find? p = some (g a) := by
  induction l with
  | nil => simp [List.find?] at h
  | cons x xs ih =>
    rw [List.map_cons]
    cases hx : p x with
    | true =>
      rw [List.find?_cons_of_pos _ hx] at h
      obtain rfl : x = a := by injection h
      rw [List.find?_cons_of_pos _ hga]
    | false =>
      rw [List.find?_cons_of_neg _ (by simp [hx])] at h
      rw [hstable x hx, List.find?_cons_of_neg _ (by simp [hx])]
      exact ih h

/-- C9: for every blog id that does not identify an existing Blog,
get-blog-by-id fails with HTTP 500 and the message "not found" (not 404), and
it succeeds with HTTP 200 and the Blog when the id exists. -/
theorem getById_spec (s : Store) (bid : Nat) :
    (findBlogById s bid = none →
      (getById s bid).status = 500 ∧ (getById s bid).message = "not found") ∧
    (∀ b, findBlogById s bid = some b →
      (getById s bid).status = 200 ∧ (getById s bid).blog = some b) := by
  constructor
  · intro h
    simp [getById, h]
  · intro b h
    simp [getById, h]

theorem getById_spec_witness :
    ((getById wStore 99).status = 500 ∧
      (getById wStore 99).message = "not found") ∧
    ((getById wStore 10).status = 200 ∧
      (getById wStore 10).blog = some wBlogT) :=
  ⟨(getById_spec wStore 99).1 (by decide),
   (getById_spec wStore 10).2 wBlogT (by decide)⟩

/-- C7: for every add-blog input whose user field does not identify an
existing User, add-blog fails with HTTP 400 and the response message
Unauthorized, and no Blog record is created: the store is unchanged. -/
theorem addBlog_unauthorized (s : Store) (input : AddBlogInput) (now : Nat)
    (fault : TxFault) (t d : String)
    (ht : input.title = some t) (hd : input.desc = some d)
    (hnouser : ∀ uid, input.user = some uid → findUserById s uid = none) :
    (addBlog s input now fault).1 = s ∧
    (addBlog s input now fault).2.status = 400 ∧
    (addBlog s input now fault).2.message = "Unauthorized" ∧
    (addBlog s input now fault).2.blog = none := by
  have h1 : addBlog s input now fault =
      (s, { status := 400, message := "Unauthorized", blog := none }) := by
    cases hu : input.user with
    | none => simp [addBlog, ht, hd, hu]
    | some uid => simp [addBlog, ht, hd, hu, hnouser uid hu]
  rw [h1]
  exact ⟨rfl, rfl, rfl, rfl⟩

theorem addBlog_unauthorized_witness :
    (addBlog wStore
      { title := some "U", desc := some "V", img := none, user := some 9 }
      7 TxFault.commit).1 = wStore ∧
    (addBlog wStore
      { title := some "U", desc := some "V", img := none, user := some 9 }
      7 TxFault.commit).2.status = 400 ∧
    (addBlog wStore
      { title := some "U", desc := some "V", img := none, user := some 9 }
      7 TxFault.commit).2.message = "Unauthorized" ∧
    (addBlog wStore
      { title := some "U", desc := some "V", img := none, user := some 9 }
      7 TxFault.commit).2.blog = none :=
  addBlog_unauthorized wStore
    { title := some "U", desc := some "V", img := none, user := some 9 }
    7 TxFault.commit "U" "V" rfl rfl
    (by
      intro uid h
      injection h with h2
      subst h2
      decide)

/-- C1: if the add-blog transaction hits a storage fault after the Blog write
but before the User write, neither the Blog store nor the User store is
changed, the handler returns InternalError 500, and no partial state is
observable by a subsequent read (get-blog-by-id and get-blogs-by-user read
exactly what they read before the operation). -/
theorem addBlog_fault_atomic (s : Store) (input : AddBlogInput) (now : Nat)
    (t d : String) (uid : Nat) (owner : User)
    (ht : input.title = some t) (hd : input.desc = some d)
    (hu : input.user = some uid) (howner : findUserById s uid = some owner) :
    (addBlog s input now TxFault.faultBetweenWrites).1 = s ∧
    (addBlog s input now TxFault.faultBetweenWrites).2.status = 500 ∧
    (∀ q, getById (addBlog s input now TxFault.faultBetweenWrites).1 q =
      getById s q) ∧
    (∀ v, getByUserId (addBlog s input now TxFault.faultBetweenWrites).1 v =
      getByUserId s v) := by
  have h1 : addBlog s input now TxFault.faultBetweenWrites =
      (s, { status := 500, message := "Unable to add", blog := none }) := by
    simp [addBlog, ht, hd, hu, howner]
  rw [h1]
  exact ⟨rfl, rfl, fun q => rfl, fun v => rfl⟩

theorem addBlog_fault_atomic_witness :
    (addBlog wStore
      { title := some "U", desc := some "V", img := none, user := some 2 }
      7 TxFault.faultBetweenWrites).1 = wStore ∧
    (addBlog wStore
      { title := some "U", desc := some "V", img := none, user := some 2 }
      7 TxFault.faultBetweenWrites).2.status = 500 ∧
    (∀ q, getById (addBlog wStore
      { title := some "U", desc := some "V", img := none, user := some 2 }
      7 TxFault.faultBetweenWrites).1 q = getById wStore q) ∧
    (∀ v, getByUserId (addBlog wStore
      { title := some "U", desc := some "V", img := none, user := some 2 }
      7 TxFault.faultBetweenWrites).1 v = getByUserId wStore v) :=
  addBlog_fault_atomic wStore
    { title := some "U", desc := some "V", img := none, user := some 2 }
    7 "U" "V" 2 wUserB rfl rfl rfl (by decide)

/-- C8: for every existing Blog, update-blog with both title and desc present
changes only the title and desc fields, leaving img, user and date at their
previous values, returns the updated Blog with HTTP 200, leaves the user
collection untouched, and a subsequent read by id sees the updated record. -/
theorem updateBlog_frame (s : Store) (bid : Nat) (t d : String) (b : Blog)
    (hb : findBlogById s bid = some b) :
    (updateBlog s bid { title := some t, desc := some d }).2.status = 200 ∧
    (updateBlog s bid { title := some t, desc := some d }).2.blog =
      some { b with title := t, desc := d } ∧
    (updateBlog s bid { title := some t, desc := some d }).1.users = s.users ∧
    findBlogById (updateBlog s bid { title := some t, desc := some d }).1 bid =
      some { b with title := t, desc := d } := by
  have hb2 : s.blogs.find? (fun x => x.id == bid) = some b := hb
  have hpb0 := List.find?_some hb2
  have hpb : (b.id == bid) = true := hpb0
  have hupd : updateBlog s bid { title := some t, desc := some d } =
      ({ users := s.users,
         blogs := s.blogs.map (fun x =>
           if x.id == bid then { b with title := t, desc := d } else x) },
       { status := 200, message := "",
         blog := some { b with title := t, desc := d } }) := by
    unfold updateBlog
    rw [show findBlogById s bid = some b from hb]
    rfl
  refine ⟨by rw [hupd], by rw [hupd], by rw [hupd], ?_⟩
  rw [hupd]
  show (s.blogs.map (fun x =>
      if x.id == bid then { b with title := t, desc := d } else x)).find?
      (fun x => x.id == bid) = some { b with title := t, desc := d }
  have hres := find?_map_replace (fun x => x.id == bid)
    (fun x => if x.id == bid then { b with title := t, desc := d } else x)
    s.blogs b hb2
    (by
      intro x hx
      simp [hx])
    (by simp [hpb])
  rw [hres]
  simp [hpb]

theorem updateBlog_frame_witness :
    (updateBlog wStore 10 { title := some "N", desc := some "E" }).2.status = 200 ∧
    (updateBlog wStore 10 { title := some "N", desc := some "E" }).2.blog =
      some { wBlogT with title := "N", desc := "E" } ∧
    (updateBlog wStore 10 { title := some "N", desc := some "E" }).1.users =
      wStore.users ∧
    findBlogById (updateBlog wStore 10 { title := some "N", desc := some "E" }).1 10 =
      some { wBlogT with title := "N", desc := "E" } :=
  updateBlog_frame wStore 10 "N" "E" wBlogT (by decide)

/-- C10: update-blog performs no presence validation of its input: a body
missing desc (or missing title) is not rejected, the supplied subset of
fields is applied to the stored record and HTTP 200 is returned. -/
theorem updateBlog_noPresenceValidation (s : Store) (bid : Nat) (b : Blog)
    (t d : String) (hb : findBlogById s bid = some b) :
    ((updateBlog s bid { title := some t, desc := none }).2.status = 200 ∧
     (updateBlog s bid { title := some t, desc := none }).2.blog =
       some { b with title := t }) ∧
    ((updateBlog s bid { title := none, desc := some d }).2.status = 200 ∧
     (updateBlog s bid { title := none, desc := some d }).2.blog =
       some { b with desc := d }) := by
  simp [updateBlog, hb, Blog.applyUpdate]

theorem updateBlog_noPresenceValidation_witness :
    ((updateBlog wStore 10 { title := some "N", desc := none }).2.status = 200 ∧
     (updateBlog wStore 10 { title := some "N", desc := none }).2.blog =
       some { wBlogT with title := "N" }) ∧
    ((updateBlog wStore 10 { title := none, desc := some "E" }).2.status = 200 ∧
     (updateBlog wStore 10 { title := none, desc := some "E" }).2.blog =
       some { wBlogT with desc := "E" }) :=
  updateBlog_noPresenceValidation wStore 10 wBlogT "N" "E" (by decide)

/-- C6: every successful login (existing email, verifying password) returns
the public user fields together with an opaque session token and HTTP 200;
the public projection carries no password field. -/
theorem logIn_returnsToken (s : Store) (e p : String) (u : User)
    (hu : findUserByEmail s e = some u)
    (hv : verifyPassword p u.password = true) :
    (logIn s { email := some e, password := some p }).status = 200 ∧
    (logIn s { email := some e, password := some p }).user = some u.toApi ∧
    (logIn s { email := some e, password := some p }).token =
      some (issueToken u) ∧
    u.toApi.password = none := by
  simp [logIn, hu, hv, User.toApi]

theorem logIn_returnsToken_witness :
    (logIn wStore { email := some "a@x.com", password := some "p" }).status = 200 ∧
    (logIn wStore { email := some "a@x.com", password := some "p" }).user =
      some wUserA.toApi ∧
    (logIn wStore { email := some "a@x.com", password := some "p" }).token =
      some (issueToken wUserA) ∧
    wUserA.toApi.password = none :=
  logIn_returnsToken wStore "a@x.com" "p" wUserA (by decide) (by decide)

/-- C3: login returns 200 iff a user with exactly the given email exists and
password verification against the stored hash of that user succeeds; 404 when
no user has that email; 400 when the user exists but verification fails.
Emails are unique across users (spec section 3), stated as a Nodup
hypothesis. -/
theorem logIn_iff (s : Store) (e p : String)
    (huniq : (s.users.map User.email).Nodup) :
    ((logIn s { email := some e, password := some p }).status = 200 ↔
      ∃ u ∈ s.users, u.email = e ∧ verifyPassword p u.password = true) ∧
    ((∀ u ∈ s.users, u.email ≠ e) →
      (logIn s { email := some e, password := some p }).status = 404) ∧
    (∀ u ∈ s.users, u.email = e → verifyPassword p u.password = false →
      (logIn s { email := some e, password := some p }).status = 400) := by
  cases hfind : findUserByEmail s e with
  | none =>
    have hnone := List.find?_eq_none.1
      (show s.users.find? (fun x => x.email == e) = none from hfind)
    refine ⟨?_, ?_, ?_⟩
    · constructor
      · intro h200
        exfalso
        have : (logIn s { email := some e, password := some p }).status = 404 := by
          simp [logIn, hfind]
        rw [this] at h200
        omega
      · rintro ⟨u, hu, hue, -⟩
        exact absurd (by simp [hue]) (hnone u hu)
    · intro _
      simp [logIn, hfind]
    · intro u hu hue _
      exact absurd (by simp [hue]) (hnone u hu)
  | some u =>
    have hfind2 : s.users.find? (fun x => x.email == e) = some u := hfind
    have hmem : u ∈ s.users := List.mem_of_find?_eq_some hfind2
    have hue0 := List.find?_some hfind2
    have hue : u.email = e := by simpa using hue0
    cases hv : verifyPassword p u.password with
    | true =>
      refine ⟨?_, ?_, ?_⟩
      · constructor
        · intro _
          exact ⟨u, hmem, hue, hv⟩
        · intro _
          simp [logIn, hfind, hv]
      · intro hall
        exact absurd hue (hall u hmem)
      · intro w hw hwe hwv
        have hweq : w = u :=
          List.inj_on_of_nodup_map huniq hw hmem (by rw [hwe, hue])
        rw [hweq, hv] at hwv
        cases hwv
    | false =>
      refine ⟨?_, ?_, ?_⟩
      · constructor
        · intro h200
          exfalso
          have : (logIn s { email := some e, password := some p }).status = 400 := by
            simp [logIn, hfind, hv]
          rw [this] at h200
          omega
        · rintro ⟨w, hw, hwe, hwv⟩
          exfalso
          have hweq : w = u :=
            List.inj_on_of_nodup_map huniq hw hmem (by rw [hwe, hue])
          rw [hweq, hv] at hwv
          cases hwv
      · intro hall
        exact absurd hue (hall u hmem)
      · intro _ _ _ _
        simp [logIn, hfind, hv]

theorem logIn_iff_witness :
    (((logIn wStore { email := some "a@x.com", password := some "p" }).status = 200 ↔
      ∃ u ∈ wStore.users, u.email = "a@x.com" ∧
        verifyPassword "p" u.password = true) ∧
     ((∀ u ∈ wStore.users, u.email ≠ "a@x.com") →
      (logIn wStore { email := some "a@x.com", password := some "p" }).status = 404) ∧
     (∀ u ∈ wStore.users, u.email = "a@x.com" →
        verifyPassword "p" u.password = false →
        (logIn wStore { email := some "a@x.com", password := some "p" }).status = 400)) :=
  logIn_iff wStore "a@x.com" "p" (by decide)

theorem signUp_existing_email_rejected (s : Store) (input : SignupInput)
    (e : String) (hemail : input.email = some e)
    (hexists : ∃ u ∈ s.users, u.email = e) :
    (signUp s input).2.status = 400 ∧ (signUp s input).1 = s := by
  obtain ⟨u, hmem, hue⟩ := hexists
  obtain ⟨iname, iemail, ipass⟩ := input
  have hie : iemail = some e := hemail
  subst hie
  cases iname with
  | none =>
    constructor
    · simp [signUp, blank]
    · simp [signUp, blank]
  | some n =>
    cases ipass with
    | none =>
      constructor
      · simp [signUp, blank]
      · simp [signUp, blank]
    | some p =>
      cases hbl : (n.isEmpty || e.isEmpty || p.isEmpty) with
      | true =>
        constructor
        · simp [signUp, blank, hbl]
        · simp [signUp, blank, hbl]
      | false =>
        cases hfind : findUserByEmail s e with
        | none =>
          exfalso
          have hnone := List.find?_eq_none.1
            (show s.users.find? (fun x => x.email == e) = none from hfind)
          exact absurd (by simp [hue]) (hnone u hmem)
        | some w =>
          constructor
          · simp [signUp, blank, hbl, hfind]
          · simp [signUp, blank, hbl, hfind]

theorem signUp_success_shape (s : Store) (input : SignupInput)
    (h201 : (signUp s input).2.status = 201) :
    ∃ n e p, input.name = some n ∧ input.email = some e ∧
      input.password = some p ∧ findUserByEmail s e = none ∧
      (signUp s input).1.users = s.users ++
        [{ id := freshUserId s, name := n, email := e,
           password := hashPassword p, blogs := [] }] := by
  obtain ⟨iname, iemail, ipass⟩ := input
  cases iname with
  | none =>
    exfalso
    have h400 : (signUp s { name := none, email := iemail,
                            password := ipass }).2.status = 400 := by
      simp [signUp, blank]
    rw [h400] at h201
    omega
  | some n =>
    cases iemail with
    | none =>
      exfalso
      have h400 : (signUp s { name := some n, email := none,
                              password := ipass }).2.status = 400 := by
        simp [signUp, blank]
      rw [h400] at h201
      omega
    | some e =>
      cases ipass with
      | none =>
        exfalso
        have h400 : (signUp s { name := some n, email := some e,
                                password := none }).2.status = 400 := by
          simp [signUp, blank]
        rw [h400] at h201
        omega
      | some p =>
        cases hbl : (n.isEmpty || e.isEmpty || p.isEmpty) with
        | true =>
          exfalso
          have h400 : (signUp s { name := some n, email := some e,
                                  password := some p }).2.status = 400 := by
            simp [signUp, blank, hbl]
          rw [h400] at h201
          omega
        | false =>
          cases hfind : findUserByEmail s e with
          | some w =>
            exfalso
            have h400 : (signUp s { name := some n, email := some e,
                                    password := some p }).2.status = 400 := by
              simp [signUp, blank, hbl, hfind]
            rw [h400] at h201
            omega
          | none =>
            refine ⟨n, e, p, rfl, rfl, rfl, hfind, ?_⟩
            simp [signUp, blank, hbl, hfind]

/-- C4: when the user store already contains a user whose email equals the
signup email, signup fails with HTTP 400 and the store is unchanged; and a
signup that succeeded with 201, repeated identically, fails with 400 the
second time, again without changing the store. -/
theorem signUp_conflict (s : Store) (input : SignupInput) (e : String)
    (hemail : input.email = some e) :
    ((∃ u ∈ s.users, u.email = e) →
      (signUp s input).2.status = 400 ∧ (signUp s input).1 = s) ∧
    ((signUp s input).2.status = 201 →
      (signUp (signUp s input).1 input).2.status = 400 ∧
      (signUp (signUp s input).1 input).1 = (signUp s input).1) := by
  refine ⟨fun hex => signUp_existing_email_rejected s input e hemail hex, ?_⟩
  intro h201
  obtain ⟨n, e2, p, hn, he2, hp, hfind, husers⟩ := signUp_success_shape s input h201
  have hee : e2 = e := by
    rw [hemail] at he2
    exact (Option.some.inj he2).symm
  subst hee
  apply signUp_existing_email_rejected (signUp s input).1 input e2 hemail
  refine ⟨{ id := freshUserId s, name := n, email := e2,
            password := hashPassword p, blogs := [] }, ?_, rfl⟩
  rw [husers]
  simp

theorem signUp_conflict_witness :
    ((∃ u ∈ wStore.users, u.email = "a@x.com") →
      (signUp wStore { name := some "Z", email := some "a@x.com",
                       password := some "z" }).2.status = 400 ∧
      (signUp wStore { name := some "Z", email := some "a@x.com",
                       password := some "z" }).1 = wStore) ∧
    ((signUp wStore { name := some "Z", email := some "a@x.com",
                      password := some "z" }).2.status = 201 →
      (signUp (signUp wStore { name := some "Z", email := some "a@x.com",
                               password := some "z" }).1
              { name := some "Z", email := some "a@x.com",
                password := some "z" }).2.status = 400 ∧
      (signUp (signUp wStore { name := some "Z", email := some "a@x.com",
                               password := some "z" }).1
              { name := some "Z", email := some "a@x.com",
                password := some "z" }).1 =
        (signUp wStore { name := some "Z", email := some "a@x.com",
                         password := some "z" }).1) :=
  signUp_conflict wStore
    { name := some "Z", email := some "a@x.com", password := some "z" }
    "a@x.com" rfl

/-- C5: a valid signup (nonempty fields, fresh email) hashes the password,
creates a User with an empty blogs list, persists it, and returns HTTP 201
with the public fields of the created user; the password field of the
response body is neither the plaintext nor the stored hash. -/
theorem signUp_success (s : Store) (n e p : String)
    (hn : n.isEmpty = false) (he : e.isEmpty = false) (hp : p.isEmpty = false)
    (hfresh : findUserByEmail s e = none) :
    (signUp s { name := some n, email := some e,
                password := some p }).2.status = 201 ∧
    (signUp s { name := some n, email := some e,
                password := some p }).1.users = s.users ++
      [{ id := freshUserId s, name := n, email := e,
         password := hashPassword p, blogs := [] }] ∧
    (signUp s { name := some n, email := some e,
                password := some p }).1.blogs = s.blogs ∧
    (signUp s { name := some n, email := some e,
                password := some p }).2.user =
      some { id := freshUserId s, name := n, email := e, password := none,
             blogs := [] } ∧
    (∀ q, (signUp s { name := some n, email := some e,
                      password := some p }).2.user = some q →
      q.password ≠ some p ∧ q.password ≠ some (hashPassword p)) := by
  have hred : signUp s { name := some n, email := some e, password := some p } =
      ({ s with users := s.users ++
           [{ id := freshUserId s, name := n, email := e,
              password := hashPassword p, blogs := [] }] },
       { status := 201, message := "",
         user := some { id := freshUserId s, name := n, email := e,
                        password := none, blogs := [] } }) := by
    simp [signUp, blank, hn, he, hp, hfresh, User.toApi]
  rw [hred]
  refine ⟨rfl, rfl, rfl, rfl, ?_⟩
  intro q hq
  have hq2 : q = { id := freshUserId s, name := n, email := e,
                   password := none, blogs := [] } := by
    injection hq with h
    exact h.symm
  rw [hq2]
  exact ⟨by simp, by simp⟩

theorem signUp_success_witness :
    ("C".isEmpty = false ∧ "c@x.com".isEmpty = false ∧ "r".isEmpty = false ∧
      findUserByEmail wStore "c@x.com" = none) ∧
    ((signUp wStore { name := some "C", email := some "c@x.com",
                      password := some "r" }).2.status = 201 ∧
     (signUp wStore { name := some "C", email := some "c@x.com",
                      password := some "r" }).1.users = wStore.users ++
       [{ id := freshUserId wStore, name := "C", email := "c@x.com",
          password := hashPassword "r", blogs := [] }] ∧
     (signUp wStore { name := some "C", email := some "c@x.com",
                      password := some "r" }).1.blogs = wStore.blogs ∧
     (signUp wStore { name := some "C", email := some "c@x.com",
                      password := some "r" }).2.user =
       some { id := freshUserId wStore, name := "C", email := "c@x.com",
              password := none, blogs := [] } ∧
     (∀ q, (signUp wStore { name := some "C", email := some "c@x.com",
                            password := some "r" }).2.user = some q →
       q.password ≠ some "r" ∧ q.password ≠ some (hashPassword "r"))) :=
  ⟨⟨rfl, rfl, rfl, by decide⟩,
   signUp_success wStore "C" "c@x.com" "r" rfl rfl rfl (by decide)⟩

theorem deleteBlog_eq (s : Store) (bid : Nat) (b : Blog)
    (hb : findBlogById s bid = some b) :
    deleteBlog s bid =
      ({ users := s.users.map (fun u =>
           if u.id == b.user then
             { u with blogs := u.blogs.filter (fun x => x != bid) }
           else u),
         blogs := s.blogs.filter (fun x => x.id != bid) },
       { status := 200, message := "Successfully deleted" }) := by
  unfold deleteBlog
  rw [show findBlogById s bid = some b from hb]

theorem deleteBlog_no_ref (s : Store) (bid : Nat) (b : Blog)
    (hnodupB : (s.blogs.map Blog.id).Nodup)
    (hcons : Consistent s) (hbmem : b ∈ s.blogs) (hbid : b.id = bid) :
    ∀ u2 ∈ s.users.map (fun u =>
      if u.id == b.user then
        { u with blogs := u.blogs.filter (fun x => x != bid) }
      else u), bid ∉ u2.blogs := by
  intro u2 hu2
  obtain ⟨u, hu, rfl⟩ := List.mem_map.1 hu2
  by_cases hcase : u.id = b.user
  · rw [if_pos (by simp [hcase])]
    intro hmem
    have hmem2 : bid ∈ u.blogs.filter (fun x => x != bid) := hmem
    have hcond := (List.mem_filter.1 hmem2).2
    simp at hcond
  · rw [if_neg (by simp [hcase])]
    intro hmem
    obtain ⟨c, hcmem, hcid, hcuser⟩ := hcons u hu bid hmem
    have hceq : c = b :=
      List.inj_on_of_nodup_map hnodupB hcmem hbmem (by rw [hcid, hbid])
    rw [hceq] at hcuser
    exact hcase hcuser.symm

theorem deleteBlog_consistent_store (s : Store) (bid : Nat) (b : Blog)
    (hnodupB : (s.blogs.map Blog.id).Nodup)
    (hcons : Consistent s) (hbmem : b ∈ s.blogs) (hbid : b.id = bid) :
    Consistent
      { users := s.users.map (fun u =>
          if u.id == b.user then
            { u with blogs := u.blogs.filter (fun x => x != bid) }
          else u),
        blogs := s.blogs.filter (fun x => x.id != bid) } := by
  intro u2 hu2 bid2 hbid2
  have hu2b : u2 ∈ s.users.map (fun u =>
      if u.id == b.user then
        { u with blogs := u.blogs.filter (fun x => x != bid) }
      else u) := hu2
  obtain ⟨u, hu, rfl⟩ := List.mem_map.1 hu2b
  by_cases hcase : u.id = b.user
  · rw [if_pos (by simp [hcase])] at hbid2 ⊢
    have hmem2 : bid2 ∈ u.blogs.filter (fun x => x != bid) := hbid2
    rw [List.mem_filter] at hmem2
    obtain ⟨hmem, hne⟩ := hmem2
    obtain ⟨c, hcmem, hcid, hcuser⟩ := hcons u hu bid2 hmem
    refine ⟨c, ?_, hcid, ?_⟩
    · show c ∈ s.blogs.filter (fun x => x.id != bid)
      rw [List.mem_filter]
      refine ⟨hcmem, ?_⟩
      show (c.id != bid) = true
      rw [hcid]
      exact hne
    · exact hcuser
  · rw [if_neg (by simp [hcase])] at hbid2 ⊢
    obtain ⟨c, hcmem, hcid, hcuser⟩ := hcons u hu bid2 hbid2
    have hcneq : c.id ≠ bid := by
      intro hcontra
      have hceq : c = b :=
        List.inj_on_of_nodup_map hnodupB hcmem hbmem (by rw [hcontra, hbid])
      rw [hceq] at hcuser
      exact hcase hcuser.symm
    refine ⟨c, ?_, hcid, hcuser⟩
    show c ∈ s.blogs.filter (fun x => x.id != bid)
    rw [List.mem_filter]
    refine ⟨hcmem, ?_⟩
    show (c.id != bid) = true
    simpa using hcneq

theorem populate_subset (s : Store) (l : List Nat) :
    ∀ blg ∈ populateBlogs s l, blg ∈ s.blogs := by
  intro blg hblg
  obtain ⟨x, hx, hfb⟩ := List.mem_filterMap.1 hblg
  exact List.mem_of_find?_eq_some
    (show s.blogs.find? (fun y => y.id == x) = some blg from hfb)

theorem getByUserId_excludes (s2 : Store) (bid uid : Nat)
    (hno : ∀ c ∈ s2.blogs, c.id ≠ bid) :
    ∀ pu, (getByUserId s2 uid).user = some pu →
      ∀ blg ∈ pu.blogs, blg.id ≠ bid := by
  intro pu hpu blg hblg
  cases hfu : findUserById s2 uid with
  | none =>
    have hn : (getByUserId s2 uid).user = none := by
      unfold getByUserId
      rw [hfu]
    rw [hn] at hpu
    cases hpu
  | some u2 =>
    have heq : (getByUserId s2 uid).user =
        some { id := u2.id, name := u2.name, email := u2.email,
               blogs := populateBlogs s2 u2.blogs } := by
      unfold getByUserId
      rw [hfu]
    rw [heq] at hpu
    have hpu2 := Option.some.inj hpu
    rw [← hpu2] at hblg
    exact hno blg (populate_subset s2 u2.blogs blg hblg)

/-- C2: from a well-formed store (distinct user ids, distinct blog ids) that
satisfies the bidirectional-consistency invariant and contains a Blog with id
bid, the delete of bid succeeds with 200, removes bid from the blogs list of
every remaining user (in particular from the former owner), preserves the
invariant, and a subsequent get-blogs-by-user for the former owner never
includes the deleted blog. -/
theorem deleteBlog_bidirectional (s : Store) (bid : Nat) (b : Blog)
    (hwf : WF s) (hcons : Consistent s) (hb : findBlogById s bid = some b) :
    (deleteBlog s bid).2.status = 200 ∧
    (∀ u2 ∈ (deleteBlog s bid).1.users, bid ∉ u2.blogs) ∧
    Consistent (deleteBlog s bid).1 ∧
    (∀ pu, (getByUserId (deleteBlog s bid).1 b.user).user = some pu →
      ∀ blg ∈ pu.blogs, blg.id ≠ bid) := by
  have hb2 : s.blogs.find? (fun x => x.id == bid) = some b := hb
  have hbmem : b ∈ s.blogs := List.mem_of_find?_eq_some hb2
  have hbid0 := List.find?_some hb2
  have hbid : b.id = bid := by simpa using hbid0
  have hdel := deleteBlog_eq s bid b hb
  rw [hdel]
  refine ⟨rfl, ?_, ?_, ?_⟩
  · exact deleteBlog_no_ref s bid b hwf.2 hcons hbmem hbid
  · exact deleteBlog_consistent_store s bid b hwf.2 hcons hbmem hbid
  · apply getByUserId_excludes
    intro c hc
    have hc2 : c ∈ s.blogs.filter (fun x => x.id != bid) := hc
    have hcond := (List.mem_filter.1 hc2).2
    simpa using hcond

theorem deleteBlog_bidirectional_witness :
    (deleteBlog wStore 10).2.status = 200 ∧
    (∀ u2 ∈ (deleteBlog wStore 10).1.users, 10 ∉ u2.blogs) ∧
    Consistent (deleteBlog wStore 10).1 ∧
    (∀ pu, (getByUserId (deleteBlog wStore 10).1 wBlogT.user).user = some pu →
      ∀ blg ∈ pu.blogs, blg.id ≠ 10) :=
  deleteBlog_bidirectional wStore 10 wBlogT (by decide) (by decide) (by decide)

end BlogApp
